import Mathlib

/-
  Verification development for the chaostoolkit-aws-mcp-server repository.

  The Python module `src/chaostoolkit_aws_mcp_server/server.py` is shallowly
  embedded below.  JSON-like Python values (the argument mappings arriving at
  the tool boundary and the experiment documents produced) are modelled by the
  inductive type `Json`; Python dicts are association lists preserving
  insertion order; the filesystem and the external `chaos` CLI subprocess are
  modelled by an explicit `World` record (an existence predicate on paths, a
  deterministic subprocess oracle, the ambient working directory and a fresh
  temporary-name supply).  Python exceptions that escape an operation are
  modelled by `Except String`; exceptions the source catches (subprocess
  timeouts and failures) are outcomes of the subprocess oracle.
-/

set_option maxHeartbeats 1000000

namespace Ctk

/-- A JSON-like Python value: `None`, booleans, integers, strings, lists and
(insertion-ordered) dicts. -/
inductive Json where
  | null : Json
  | bool : Bool → Json
  | num : Int → Json
  | str : String → Json
  | arr : List Json → Json
  | obj : List (String × Json) → Json

/-- Python dicts with string keys, as insertion-ordered association lists. -/
abbrev AList := List (String × Json)

/-- First value bound to `key`, mirroring Python dict lookup (callers never
build duplicate keys). -/
def lookupA : AList → String → Option Json
  | [], _ => none
  | (k, v) :: rest, key => if k == key then some v else lookupA rest key

/-- Python `d.get(key)`: the bound value, or `None` when absent. -/
def dget (d : AList) (key : String) : Json :=
  (lookupA d key).getD Json.null

/-- Python `d.get(key, dflt)`. -/
def dgetD (d : AList) (key : String) (dflt : Json) : Json :=
  (lookupA d key).getD dflt

/-- Python `d[key]`: raises `KeyError` when the key is absent. -/
def ditem (d : AList) (key : String) : Except String Json :=
  match lookupA d key with
  | some v => Except.ok v
  | none => Except.error ("KeyError: " ++ key)

/-- Python truthiness of a JSON-like value. -/
def Json.truthy : Json → Bool
  | .null => false
  | .bool b => b
  | .num n => n != 0
  | .str s => s != ""
  | .arr l => !l.isEmpty
  | .obj l => !l.isEmpty

/-- Does `s` start with the character list `pat`? -/
def startsWithL : List Char → List Char → Bool
  | [], _ => true
  | _ :: _, [] => false
  | p :: ps, c :: cs => p == c && startsWithL ps cs

/-- Does the character list `s` contain `pat` as a contiguous run? -/
def hasSubL (pat : List Char) : List Char → Bool
  | [] => startsWithL pat []
  | c :: cs => startsWithL pat (c :: cs) || hasSubL pat cs

/-- Python `pat in s` substring test. -/
def strContains (s pat : String) : Bool :=
  hasSubL pat.data s.data

/-- A single-quote character, used by Python `repr`. -/
def squote : String := String.singleton (Char.ofNat 39)

mutual

/-- Python `repr` of a JSON-like value (as far as this code base needs it:
it only ever reaches human-readable message strings). -/
def pyRepr : Json → String
  | .null => "None"
  | .bool b => if b then "True" else "False"
  | .num n => toString n
  | .str s => squote ++ s ++ squote
  | .arr l => "[" ++ pyReprItems l ++ "]"
  | .obj l => "\x7b" ++ pyReprFields l ++ "\x7d"

/-- Comma-separated `repr`s of list items. -/
def pyReprItems : List Json → String
  | [] => ""
  | [x] => pyRepr x
  | x :: y :: xs => pyRepr x ++ ", " ++ pyReprItems (y :: xs)

/-- Comma-separated `repr`s of dict fields. -/
def pyReprFields : List (String × Json) → String
  | [] => ""
  | [(k, v)] => squote ++ k ++ squote ++ ": " ++ pyRepr v
  | (k, v) :: y :: xs =>
    squote ++ k ++ squote ++ ": " ++ pyRepr v ++ ", " ++ pyReprFields (y :: xs)

end

/-- Python `str` of a JSON-like value (used by f-string interpolation). -/
def pyStr : Json → String
  | .str s => s
  | v => pyRepr v

/-- Two spaces of indentation per level, as `json.dumps(..., indent=2)`. -/
def indentN : Nat → String
  | 0 => ""
  | n + 1 => "  " ++ indentN n

/-- One lowercase hexadecimal digit. -/
def hexDigitC (n : Nat) : Char :=
  if n < 10 then Char.ofNat (48 + n) else Char.ofNat (87 + n)

/-- Four lowercase hexadecimal digits. -/
def hex4 (n : Nat) : String :=
  String.mk [hexDigitC (n / 4096 % 16), hexDigitC (n / 256 % 16),
             hexDigitC (n / 16 % 16), hexDigitC (n % 16)]

/-- JSON escaping of one character, with `ensure_ascii` behaviour. -/
def escChar (c : Char) : String :=
  if c == Char.ofNat 34 then "\\\""
  else if c == Char.ofNat 92 then "\\\\"
  else if c == Char.ofNat 10 then "\\n"
  else if c == Char.ofNat 9 then "\\t"
  else if c == Char.ofNat 13 then "\\r"
  else if c.toNat == 8 then "\\b"
  else if c.toNat == 12 then "\\f"
  else if c.toNat < 32 || c.toNat > 126 then
    if c.toNat ≥ 65536 then
      "\\u" ++ hex4 (55296 + (c.toNat - 65536) / 1024) ++
      "\\u" ++ hex4 (56320 + (c.toNat - 65536) % 1024)
    else "\\u" ++ hex4 c.toNat
  else String.singleton c

/-- A JSON string literal with escapes. -/
def jsonQuote (s : String) : String :=
  "\"" ++ String.join (s.data.map escChar) ++ "\""

mutual

/-- Rendering of `json.dumps(v, indent=2)` at nesting level `lvl`. -/
def dumpsAt : Json → Nat → String
  | .null, _ => "null"
  | .bool b, _ => if b then "true" else "false"
  | .num n, _ => toString n
  | .str s, _ => jsonQuote s
  | .arr [], _ => "[]"
  | .arr (x :: xs), lvl =>
    "[\n" ++ dumpsItems (x :: xs) (lvl + 1) ++ "\n" ++ indentN lvl ++ "]"
  | .obj [], _ => "\x7b\x7d"
  | .obj (x :: xs), lvl =>
    "\x7b\n" ++ dumpsFields (x :: xs) (lvl + 1) ++ "\n" ++ indentN lvl ++ "\x7d"

/-- The comma-and-newline separated items of a serialized list. -/
def dumpsItems : List Json → Nat → String
  | [], _ => ""
  | [x], lvl => indentN lvl ++ dumpsAt x lvl
  | x :: y :: xs, lvl =>
    indentN lvl ++ dumpsAt x lvl ++ ",\n" ++ dumpsItems (y :: xs) lvl

/-- The comma-and-newline separated fields of a serialized dict. -/
def dumpsFields : List (String × Json) → Nat → String
  | [], _ => ""
  | [(k, v)], lvl => indentN lvl ++ jsonQuote k ++ ": " ++ dumpsAt v lvl
  | (k, v) :: y :: xs, lvl =>
    indentN lvl ++ jsonQuote k ++ ": " ++ dumpsAt v lvl ++ ",\n" ++
    dumpsFields (y :: xs) lvl

end

/-- Python `json.dumps(v, indent=2)`. -/
def dumps (v : Json) : String := dumpsAt v 0

/-- Model of `ExperimentConfig`: configuration for chaos experiments. -/
structure ExperimentConfig where
  title : String
  description : String
  aws_region : String
  tags : List String

/-- Model of `ProbeConfig`: configuration for steady state probes. -/
structure ProbeConfig where
  name : String
  type : String
  module : String
  func : String
  arguments : AList
  tolerance : Json

/-- Model of `ActionConfig`: configuration for chaos actions. -/
structure ActionConfig where
  name : String
  type : String
  module : String
  func : String
  arguments : AList

/-- One rendered steady-state probe entry of `generate_experiment_json`. -/
def renderProbe (p : ProbeConfig) : Json :=
  .obj [("type", .str p.type),
        ("name", .str p.name),
        ("provider", .obj [("type", .str "python"),
                           ("module", .str p.module),
                           ("func", .str p.func),
                           ("arguments", .obj p.arguments)]),
        ("tolerance", p.tolerance)]

/-- One rendered method or rollback entry of `generate_experiment_json`. -/
def renderAction (a : ActionConfig) : Json :=
  .obj [("type", .str a.type),
        ("name", .str a.name),
        ("provider", .obj [("type", .str "python"),
                           ("module", .str a.module),
                           ("func", .str a.func),
                           ("arguments", .obj a.arguments)])]

/-- Model of `generate_experiment_json`: the complete Chaos Toolkit experiment
document assembled from the config models. -/
def generate_experiment_json (config : ExperimentConfig)
    (probes : List ProbeConfig) (actions : List ActionConfig)
    (rollbacks : List ActionConfig) : Json :=
  .obj [("version", .str "1.0.0"),
        ("title", .str config.title),
        ("description", .str config.description),
        ("tags", .arr (config.tags.map Json.str)),
        ("configuration", .obj [("aws_region", .str config.aws_region)]),
        ("steady-state-hypothesis",
          .obj [("title", .str "System is in steady state"),
                ("probes", .arr (probes.map renderProbe))]),
        ("method", .arr (actions.map renderAction)),
        ("rollbacks", .arr (rollbacks.map renderAction))]

/-- Field access on a JSON object. -/
def jLookup : Json → String → Option Json
  | .obj l, key => lookupA l key
  | _, _ => none

/-- Index access on a JSON array. -/
def jIndex : Json → Nat → Option Json
  | .arr l, i => l.get? i
  | _, _ => none

/-- One recorded invocation of the external `chaos` CLI via `subprocess.run`:
the argument vector, the `timeout=` seconds and the `cwd=` argument (`none`
when the source does not pass one). -/
structure SubprocCall where
  cmd : List String
  timeoutSec : Nat
  cwd : Option String

/-- Outcome of one `subprocess.run` invocation: normal completion with exit
code and captured streams, `subprocess.TimeoutExpired`, or any other raised
exception (carrying its `str`). -/
inductive SubprocResult where
  | completed (returncode : Int) (stdout stderr : String)
  | timedOut
  | raised (msg : String)

/-- Observable filesystem / process events of one tool call, in order. -/
inductive FsEvent where
  | tempCreated (path : String) (doc : Json)
  | tempDeleted (path : String)
  | subprocCall (c : SubprocCall)

/-- Ambient environment of a tool call: which paths exist, how the external
CLI behaves, the current working directory and the fresh names handed out by
`tempfile.NamedTemporaryFile`. -/
structure World where
  fs : String → Bool
  runner : SubprocCall → SubprocResult
  cwd0 : String
  tempName : Nat → String

/-- Result of a tool call that returned normally: the returned content list,
the experiment files written via `open(output_file, "w")` and the
filesystem / subprocess events that occurred. -/
structure ToolOut where
  content : List Json
  writes : List (String × Json)
  events : List FsEvent

/-- A `[{"type": "text", "text": s}]`-style content element. -/
def textJson (s : String) : Json :=
  .obj [("type", .str "text"), ("text", .str s)]

/-- A tool result that only carries one text element. -/
def textOnly (s : String) : ToolOut :=
  ⟨[textJson s], [], []⟩

/-- Pydantic validation of a `str`-typed model field. -/
def reqStr (v : Json) : Except String String :=
  match v with
  | .str s => Except.ok s
  | _ => Except.error "ValidationError: Input should be a valid string"

/-- The output path handed to `open(...)`: `args.get("output_file", dflt)`,
which must be a string to be opened. -/
def outFileStr (args : AList) (dflt : String) : Except String String :=
  match lookupA args "output_file" with
  | none => Except.ok dflt
  | some (.str s) => Except.ok s
  | some _ => Except.error "TypeError: output_file"

/-- The `str(TimeoutExpired)` message raised by `subprocess.run`. -/
def pyTimeoutStr (cmd : List String) (t : Nat) : String :=
  "Command " ++ squote ++ pyRepr (.arr (cmd.map Json.str)) ++ squote ++
    " timed out after " ++ toString t ++ " seconds"

/-- The health-check probe list shared by `generate_az_failure_experiment`
and `generate_asg_az_failure_experiment`: one HTTP-get probe when
`args.get("health_check_url")` is truthy, none otherwise. -/
def healthCheckProbes (args : AList) : List ProbeConfig :=
  if (dget args "health_check_url").truthy then
    [⟨"health_check", "probe", "chaoslib.provider.http", "get",
      [("url", dget args "health_check_url"), ("expected_status", .num 200)],
      .bool true⟩]
  else []

/-- Model of `generate_az_failure_experiment`. -/
def generate_az_failure_experiment (args : AList) : Except String ToolOut := do
  let tv ← ditem args "title"
  let azv ← ditem args "az"
  let t ← reqStr tv
  let region ← reqStr (dgetD args "aws_region" (.str "us-east-1"))
  let config : ExperimentConfig :=
    ⟨t, "AZ failure test for " ++ pyStr azv, region, []⟩
  let probes := healthCheckProbes args
  let actions : List ActionConfig :=
    [⟨"fail_az", "action", "azchaosaws.ec2.actions", "fail_az",
      [("az", azv),
       ("dry_run", dgetD args "dry_run" (.bool false)),
       ("failure_type", dgetD args "failure_type" (.str "network")),
       ("state_path", dgetD args "state_path" (.str "./fail_az.ec2.json"))]⟩]
  let rollbacks : List ActionConfig :=
    [⟨"recover_az", "action", "azchaosaws.ec2.actions", "recover_az",
      [("state_path", dgetD args "state_path" (.str "./fail_az.ec2.json"))]⟩]
  let experiment := generate_experiment_json config probes actions rollbacks
  let outFile ← outFileStr args "./az-failure-experiment.json"
  pure ⟨[textJson ("Generated AZ failure experiment: " ++ outFile ++
           "\n\nExperiment preview:\n" ++ dumps experiment)],
        [(outFile, experiment)], []⟩

/-- Model of `generate_asg_az_failure_experiment`. -/
def generate_asg_az_failure_experiment (args : AList) :
    Except String ToolOut := do
  let tv ← ditem args "title"
  let azv ← ditem args "az"
  let t ← reqStr tv
  let region ← reqStr (dgetD args "aws_region" (.str "us-east-1"))
  let config : ExperimentConfig :=
    ⟨t, "ASG AZ failure test for " ++ pyStr azv, region, []⟩
  let probes := healthCheckProbes args
  let actions : List ActionConfig :=
    [⟨"fail_asg_az", "action", "azchaosaws.asg.actions", "fail_az",
      [("az", azv),
       ("dry_run", dgetD args "dry_run" (.bool false)),
       ("tags", dgetD args "asg_tags"
          (.arr [.obj [("Key", .str "AZ_FAILURE"), ("Value", .str "True")]])),
       ("state_path", dgetD args "state_path" (.str "./fail_az.asg.json"))]⟩]
  let rollbacks : List ActionConfig :=
    [⟨"recover_asg_az", "action", "azchaosaws.asg.actions", "recover_az",
      [("state_path", dgetD args "state_path" (.str "./fail_az.asg.json"))]⟩]
  let experiment := generate_experiment_json config probes actions rollbacks
  let outFile ← outFileStr args "./asg-az-failure-experiment.json"
  pure ⟨[textJson ("Generated ASG AZ failure experiment: " ++ outFile ++
           "\n\nExperiment preview:\n" ++ dumps experiment)],
        [(outFile, experiment)], []⟩

/-- Model of `generate_ec2_actions_experiment`. -/
def generate_ec2_actions_experiment (args : AList) :
    Except String ToolOut := do
  let tv ← ditem args "title"
  let atv ← ditem args "action_type"
  let t ← reqStr tv
  let region ← reqStr (dgetD args "aws_region" (.str "us-east-1"))
  let config : ExperimentConfig :=
    ⟨t, "EC2 " ++ pyStr atv ++ " experiment", region, []⟩
  let action_args : AList :=
    (if (dget args "instance_ids").truthy then
       [("instance_ids", dget args "instance_ids")] else []) ++
    (if (dget args "filters").truthy then
       [("filters", dget args "filters")] else []) ++
    (if (dget args "az").truthy then [("az", dget args "az")] else [])
  let atn ← reqStr atv
  let actions : List ActionConfig :=
    [⟨atn, "action", "chaosaws.ec2.actions", atn, action_args⟩]
  let experiment := generate_experiment_json config [] actions []
  let outFile ← outFileStr args "./ec2-chaos-experiment.json"
  pure ⟨[textJson ("Generated EC2 " ++ pyStr atv ++ " experiment: " ++
           outFile ++ "\n\nExperiment preview:\n" ++ dumps experiment)],
        [(outFile, experiment)], []⟩

/-- Model of `generate_generic_experiment`: the pass-through generator parameterized
by the target module and function. -/
def generate_generic_experiment (args : AList) (module func : String) :
    Except String ToolOut := do
  let tv ← ditem args "title"
  let t ← reqStr tv
  let region ← reqStr (dgetD args "aws_region" (.str "us-east-1"))
  let config : ExperimentConfig := ⟨t, func ++ " experiment", region, []⟩
  let action_args : AList :=
    args.filter (fun kv =>
      !(["title", "output_file", "aws_region"].contains kv.1))
  let actions : List ActionConfig := [⟨func, "action", module, func, action_args⟩]
  let experiment := generate_experiment_json config [] actions []
  let outFile ← outFileStr args ("./" ++ func ++ "-experiment.json")
  pure ⟨[textJson ("Generated " ++ func ++ " experiment: " ++ outFile ++
           "\n\nExperiment preview:\n" ++ dumps experiment)],
        [(outFile, experiment)], []⟩

/-- The shell commands synthesized by `generate_ssm_stress_experiment`. -/
def ssmStressCommands (args : AList) (stress_type : String) : List String :=
  if stress_type == "cpu" then
    ["stress --cpu " ++ pyStr (dgetD args "cpu_cores" (.num 2)) ++
     " --timeout " ++ pyStr (dgetD args "duration_seconds" (.num 300)) ++ "s"]
  else if stress_type == "disk" then
    ["dd if=/dev/zero of=" ++ pyStr (dgetD args "path" (.str "/tmp")) ++
       "/chaos_fill bs=1M count=" ++ pyStr (dgetD args "size_mb" (.num 1024)),
     "sleep " ++ pyStr (dgetD args "duration_seconds" (.num 600)),
     "rm -f " ++ pyStr (dgetD args "path" (.str "/tmp")) ++ "/chaos_fill"]
  else
    ["echo " ++ squote ++ "Unknown stress type" ++ squote]

/-- Model of `generate_ssm_stress_experiment`. -/
def generate_ssm_stress_experiment (args : AList) (stress_type : String) :
    Except String ToolOut := do
  let tv ← ditem args "title"
  let t ← reqStr tv
  let region ← reqStr (dgetD args "aws_region" (.str "us-east-1"))
  let config : ExperimentConfig :=
    ⟨t, "SSM " ++ stress_type ++ " stress experiment", region, []⟩
  let commands := ssmStressCommands args stress_type
  let iids ← ditem args "instance_ids"
  let actions : List ActionConfig :=
    [⟨"ssm_" ++ stress_type ++ "_stress", "action", "chaosaws.ssm.actions",
      "send_command",
      [("instance_ids", iids),
       ("document_name", .str "AWS-RunShellScript"),
       ("parameters", .obj [("commands", .arr (commands.map Json.str))])]⟩]
  let experiment := generate_experiment_json config [] actions []
  let outFile ← outFileStr args
    ("./ssm-" ++ stress_type ++ "-stress-experiment.json")
  pure ⟨[textJson ("Generated SSM " ++ stress_type ++ " stress experiment: " ++
           outFile ++ "\n\nExperiment preview:\n" ++ dumps experiment)],
        [(outFile, experiment)], []⟩

/-- Whether a tool call returned normally. -/
def isOkE (r : Except String ToolOut) : Bool :=
  match r with
  | .ok _ => true
  | .error _ => false

/-- The files a tool call wrote (a call that raised wrote none). -/
def writesOf (r : Except String ToolOut) : List (String × Json) :=
  match r with
  | .ok o => o.writes
  | .error _ => []

/-- The experiment document a generation call wrote. -/
def expOf (r : Except String ToolOut) : Option Json :=
  (writesOf r).head?.map Prod.snd

/-- The `method` array of the written document. -/
def methodOf (r : Except String ToolOut) : Option Json :=
  (expOf r).bind (fun e => jLookup e "method")

/-- The steady-state probe array of the written document. -/
def probesOf (r : Except String ToolOut) : Option Json :=
  (expOf r).bind (fun e =>
    (jLookup e "steady-state-hypothesis").bind (fun s => jLookup s "probes"))

/-- The `parameters.commands` list of the sole method step of the written
document. -/
def commandsOf (r : Except String ToolOut) : Option Json :=
  (methodOf r).bind (fun m =>
    (jIndex m 0).bind (fun s =>
      (jLookup s "provider").bind (fun p =>
        (jLookup p "arguments").bind (fun a =>
          (jLookup a "parameters").bind (fun ps => jLookup ps "commands")))))

/-- The arguments mapping of the sole method step of the written document. -/
def soleStepArgs (r : Except String ToolOut) : Option Json :=
  (methodOf r).bind (fun m =>
    (jIndex m 0).bind (fun s =>
      (jLookup s "provider").bind (fun p => jLookup p "arguments")))

/-- The working directory used by run / rollback:
`args.get("working_directory", os.getcwd())`. -/
def cwdOf (w : World) (args : AList) : Except String String :=
  match lookupA args "working_directory" with
  | none => Except.ok w.cwd0
  | some (.str s) => Except.ok s
  | some _ => Except.error "TypeError: working_directory"

/-- The `experiment_file` path handed to `os.path.exists`. -/
def reqPathStr (key : String) (v : Json) : Except String String :=
  match v with
  | .str s => Except.ok s
  | _ => Except.error ("TypeError: " ++ key)

/-- Model of `run_experiment`: invoke `chaos run` on an experiment file. -/
def run_experiment (w : World) (args : AList) : Except String ToolOut := do
  let pv ← ditem args "experiment_file"
  let p ← reqPathStr "experiment_file" pv
  if w.fs p then do
    let jext ←
      (if (dget args "journal_path").truthy then
        match lookupA args "journal_path" with
        | some (.str s) => Except.ok ["--journal-path", s]
        | _ => Except.error "TypeError: journal_path"
      else Except.ok [])
    let cwd ← cwdOf w args
    let c : SubprocCall := ⟨["chaos", "run", p] ++ jext, 3600, some cwd⟩
    match w.runner c with
    | .completed rc out err =>
      pure ⟨[textJson ("Exit code: " ++ toString rc ++ "\n\nSTDOUT:\n" ++
               out ++ "\n\nSTDERR:\n" ++ err)], [], [.subprocCall c]⟩
    | .timedOut =>
      pure ⟨[textJson "Error: Experiment execution timed out after 1 hour"],
            [], [.subprocCall c]⟩
    | .raised m =>
      pure ⟨[textJson ("Error running experiment: " ++ m)], [],
            [.subprocCall c]⟩
  else
    pure (textOnly ("Error: Experiment file not found: " ++ p))

/-- Model of `validate_experiment`: invoke `chaos validate` on an experiment file. -/
def validate_experiment (w : World) (args : AList) : Except String ToolOut := do
  let pv ← ditem args "experiment_file"
  let p ← reqPathStr "experiment_file" pv
  if w.fs p then
    let c : SubprocCall := ⟨["chaos", "validate", p], 60, none⟩
    match w.runner c with
    | .completed rc out err =>
      pure ⟨[textJson ("Validation result: " ++
               (if rc == 0 then "PASSED" else "FAILED") ++ "\n\n" ++ out ++
               "\n" ++ err)], [], [.subprocCall c]⟩
    | .timedOut =>
      pure ⟨[textJson ("Error validating experiment: " ++
               pyTimeoutStr c.cmd 60)], [], [.subprocCall c]⟩
    | .raised m =>
      pure ⟨[textJson ("Error validating experiment: " ++ m)], [],
            [.subprocCall c]⟩
  else
    pure (textOnly ("Error: Experiment file not found: " ++ p))

/-- The rollback target module inferred from a state file path: the `"ec2"`
substring test runs first, then the `"asg"` one. -/
def routeModule (file : String) : Option String :=
  if strContains file "ec2" then some "azchaosaws.ec2.actions"
  else if strContains file "asg" then some "azchaosaws.asg.actions"
  else none

/-- The single-step rollback experiment synthesized for one state file. -/
def rollbackDoc (mod file : String) : Json :=
  .obj [("version", .str "1.0.0"),
        ("title", .str ("Rollback from " ++ file)),
        ("description", .str "Automated rollback"),
        ("method",
          .arr [.obj [("type", .str "action"),
                      ("name", .str "recover_az"),
                      ("provider",
                        .obj [("type", .str "python"),
                              ("module", .str mod),
                              ("func", .str "recover_az"),
                              ("arguments",
                                .obj [("state_path", .str file)])])]])]

/-- Result entries and events of processing one state file. -/
structure FileOutcome where
  lines : List String
  events : List FsEvent

/-- Processing of one state file inside `rollback_from_state`: skip with a
warning when the path does not exist or matches no known type; otherwise
write the synthesized rollback document to a fresh temporary file, invoke
`chaos run` on it with a 600-second timeout and delete the temporary file in
a `finally` block, recording the outcome (the `except Exception` handler
turns a timeout or any other raised error into an error entry). -/
def processStateFile (w : World) (cwd : String) (k : Nat) (file : String) :
    FileOutcome :=
  if w.fs file then
    match routeModule file with
    | none => ⟨["Warning: Unknown state file type: " ++ file], []⟩
    | some mod =>
      let doc := rollbackDoc mod file
      let tmp := w.tempName k
      let c : SubprocCall := ⟨["chaos", "run", tmp], 600, some cwd⟩
      let evs : List FsEvent :=
        [.tempCreated tmp doc, .subprocCall c, .tempDeleted tmp]
      match w.runner c with
      | .completed rc out err =>
        ⟨["Rollback from " ++ file ++ ": " ++
            (if rc == 0 then "SUCCESS" else "FAILED")] ++
         (if out == "" then [] else ["Output: " ++ out]) ++
         (if err == "" then [] else ["Errors: " ++ err]), evs⟩
      | .timedOut =>
        ⟨["Error rolling back " ++ file ++ ": " ++ pyTimeoutStr c.cmd 600],
         evs⟩
      | .raised m =>
        ⟨["Error rolling back " ++ file ++ ": " ++ m], evs⟩
  else
    ⟨["Warning: State file not found: " ++ file], []⟩

/-- The `for state_file in state_files` loop of `rollback_from_state`,
threading the accumulated result entries and events exactly as the
`results.append` calls of the source do. -/
def rollbackLoopAcc (w : World) (cwd : String) :
    List String → Nat → List String → List FsEvent → FileOutcome
  | [], _, acc, ev => ⟨acc, ev⟩
  | f :: rest, k, acc, ev =>
    let o := processStateFile w cwd k f
    rollbackLoopAcc w cwd rest (k + 1) (acc ++ o.lines) (ev ++ o.events)

/-- Per-file outcomes of a batch, each file processed independently. -/
def batchOutcome (w : World) (cwd : String) : Nat → List String → FileOutcome
  | _, [] => ⟨[], []⟩
  | k, f :: rest =>
    let o := processStateFile w cwd k f
    let r := batchOutcome w cwd (k + 1) rest
    ⟨o.lines ++ r.lines, o.events ++ r.events⟩

/-- All-string extraction of a JSON array (`state_files`). -/
def jStrList : Json → Option (List String)
  | .arr l => l.mapM (fun j => match j with | .str s => some s | _ => none)
  | _ => none

/-- Model of `rollback_from_state`: execute rollbacks from a list of state files and
return all result entries joined into one text block. -/
def rollback_from_state (w : World) (args : AList) : Except String ToolOut := do
  let sfv ← ditem args "state_files"
  let files ←
    (match jStrList sfv with
     | some l => Except.ok l
     | none => Except.error "TypeError: state_files")
  let cwd ← cwdOf w args
  let o := rollbackLoopAcc w cwd files 0 [] []
  pure ⟨[textJson (String.intercalate "\n" o.lines)], [], o.events⟩

/-- The tool name catalog declared by `list_tools`. -/
def toolNames : List String :=
  ["chaos_generate_az_failure_experiment",
   "chaos_isolate_az_network",
   "chaos_simulate_az_partition",
   "chaos_generate_asg_az_failure_experiment",
   "chaos_generate_ec2_actions_experiment",
   "chaos_run_experiment",
   "chaos_validate_experiment",
   "chaos_rollback_from_state",
   "chaos_stop_instances",
   "chaos_terminate_instances",
   "chaos_reboot_instances",
   "chaos_detach_volumes",
   "chaos_suspend_asg_processes",
   "chaos_terminate_random_instances",
   "chaos_ssm_send_command",
   "chaos_ssm_stress_cpu",
   "chaos_ssm_fill_disk",
   "chaos_ssm_kill_process",
   "chaos_modify_security_groups",
   "chaos_simulate_network_latency",
   "chaos_reboot_db_instance",
   "chaos_failover_db_cluster",
   "chaos_deregister_targets"]

/-- The `required` field list declared by the input schema of each catalog entry. -/
def requiredFields : String → List String
  | "chaos_generate_az_failure_experiment" => ["title", "az"]
  | "chaos_isolate_az_network" => ["title", "az", "vpc_id"]
  | "chaos_simulate_az_partition" => ["title", "az"]
  | "chaos_generate_asg_az_failure_experiment" => ["title", "az"]
  | "chaos_generate_ec2_actions_experiment" => ["title", "action_type"]
  | "chaos_run_experiment" => ["experiment_file"]
  | "chaos_validate_experiment" => ["experiment_file"]
  | "chaos_rollback_from_state" => ["state_files"]
  | "chaos_stop_instances" => ["title"]
  | "chaos_terminate_instances" => ["title"]
  | "chaos_reboot_instances" => ["title"]
  | "chaos_detach_volumes" => ["title"]
  | "chaos_suspend_asg_processes" => ["title", "asg_names"]
  | "chaos_terminate_random_instances" => ["title", "asg_names"]
  | "chaos_ssm_send_command" => ["title", "instance_ids", "commands"]
  | "chaos_ssm_stress_cpu" => ["title", "instance_ids"]
  | "chaos_ssm_fill_disk" => ["title", "instance_ids"]
  | "chaos_ssm_kill_process" => ["title", "instance_ids", "process_name"]
  | "chaos_modify_security_groups" => ["title", "group_ids", "action"]
  | "chaos_simulate_network_latency" => ["title", "instance_ids"]
  | "chaos_reboot_db_instance" => ["title", "db_instance_identifier"]
  | "chaos_failover_db_cluster" => ["title", "db_cluster_identifier"]
  | "chaos_deregister_targets" => ["title", "target_group_arn"]
  | _ => []

/-- Model of `call_tool`: tool-name dispatch, in the branch order of the source; an
unrecognized name raises `ValueError(f"Unknown tool: {name}")`. -/
def call_tool (w : World) (name : String) (args : AList) :
    Except String ToolOut :=
  if name = "chaos_generate_az_failure_experiment" then
    generate_az_failure_experiment args
  else if name = "chaos_generate_asg_az_failure_experiment" then
    generate_asg_az_failure_experiment args
  else if name = "chaos_isolate_az_network" then
    generate_generic_experiment args "azchaosaws.ec2.actions"
      "isolate_az_network"
  else if name = "chaos_simulate_az_partition" then
    generate_generic_experiment args "azchaosaws.ec2.actions"
      "simulate_az_partition"
  else if name = "chaos_stop_instances" then
    generate_generic_experiment args "chaosaws.ec2.actions" "stop_instances"
  else if name = "chaos_terminate_instances" then
    generate_generic_experiment args "chaosaws.ec2.actions"
      "terminate_instances"
  else if name = "chaos_reboot_instances" then
    generate_generic_experiment args "chaosaws.ec2.actions" "reboot_instances"
  else if name = "chaos_detach_volumes" then
    generate_generic_experiment args "chaosaws.ec2.actions" "detach_volumes"
  else if name = "chaos_suspend_asg_processes" then
    generate_generic_experiment args "chaosaws.asg.actions"
      "suspend_processes"
  else if name = "chaos_terminate_random_instances" then
    generate_generic_experiment args "chaosaws.asg.actions"
      "terminate_random_instances"
  else if name = "chaos_ssm_send_command" then
    generate_generic_experiment args "chaosaws.ssm.actions" "send_command"
  else if name = "chaos_ssm_stress_cpu" then
    generate_ssm_stress_experiment args "cpu"
  else if name = "chaos_ssm_fill_disk" then
    generate_ssm_stress_experiment args "disk"
  else if name = "chaos_ssm_kill_process" then
    generate_generic_experiment args "chaosaws.ssm.actions" "kill_process"
  else if name = "chaos_modify_security_groups" then
    generate_generic_experiment args "chaosaws.ec2.actions"
      "modify_security_groups"
  else if name = "chaos_simulate_network_latency" then
    generate_generic_experiment args "chaosaws.ec2.actions"
      "simulate_network_latency"
  else if name = "chaos_reboot_db_instance" then
    generate_generic_experiment args "chaosaws.rds.actions"
      "reboot_db_instance"
  else if name = "chaos_failover_db_cluster" then
    generate_generic_experiment args "chaosaws.rds.actions"
      "failover_db_cluster"
  else if name = "chaos_deregister_targets" then
    generate_generic_experiment args "chaosaws.elbv2.actions"
      "deregister_targets"
  else if name = "chaos_generate_ec2_actions_experiment" then
    generate_ec2_actions_experiment args
  else if name = "chaos_run_experiment" then
    run_experiment w args
  else if name = "chaos_validate_experiment" then
    validate_experiment w args
  else if name = "chaos_rollback_from_state" then
    rollback_from_state w args
  else
    Except.error ("Unknown tool: " ++ name)

/-- Claim C1: for every metadata config, probe list, action list and rollback
list, the document produced by `generate_experiment_json` renders its
`method` entries in exactly the order of the input actions list, its
`rollbacks` entries in exactly the order of the input rollbacks list, and its
steady-state probes in the order of the input probes list. -/
theorem method_rollback_probe_order (config : ExperimentConfig)
    (probes : List ProbeConfig) (actions : List ActionConfig)
    (rollbacks : List ActionConfig) :
    jLookup (generate_experiment_json config probes actions rollbacks)
        "method" = some (.arr (actions.map renderAction)) ∧
    jLookup (generate_experiment_json config probes actions rollbacks)
        "rollbacks" = some (.arr (rollbacks.map renderAction)) ∧
    (jLookup (generate_experiment_json config probes actions rollbacks)
        "steady-state-hypothesis").bind (fun s => jLookup s "probes") =
      some (.arr (probes.map renderProbe)) := by
  refine ⟨rfl, rfl, rfl⟩

/-- The C2 example argument mapping:
`{title, output_file, aws_region, instance_ids: ["i-1","i-2"], force: true}`. -/
def argsC2 : AList :=
  [("title", .str "T"),
   ("output_file", .str "./out.json"),
   ("aws_region", .str "us-west-2"),
   ("instance_ids", .arr [.str "i-1", .str "i-2"]),
   ("force", .bool true)]

/-- Claim C2: the sole method step of the generic generator carries the input
argument mapping with exactly the keys `title`, `output_file` and
`aws_region` removed and everything else passed through verbatim; in
particular the concrete example of the spec yields the arguments
`{instance_ids: ["i-1","i-2"], force: true}`. -/
theorem generic_excludes_meta_fields :
    (∀ (args : AList) (module func : String),
      isOkE (generate_generic_experiment args module func) = true →
      soleStepArgs (generate_generic_experiment args module func) =
        some (.obj (args.filter (fun kv =>
          !(["title", "output_file", "aws_region"].contains kv.1))))) ∧
    soleStepArgs (generate_generic_experiment argsC2 "m" "f") =
      some (.obj [("instance_ids", .arr [.str "i-1", .str "i-2"]),
                  ("force", .bool true)]) := by
  constructor
  · intro args module func h
    cases h1 : ditem args "title" with
    | error e =>
      simp [generate_generic_experiment, h1, Bind.bind, Except.bind, isOkE]
        at h
    | ok tv =>
      cases h2 : reqStr tv with
      | error e =>
        simp [generate_generic_experiment, h1, h2, Bind.bind, Except.bind,
          isOkE] at h
      | ok t =>
        cases h3 : reqStr (dgetD args "aws_region" (.str "us-east-1")) with
        | error e =>
          simp [generate_generic_experiment, h1, h2, h3, Bind.bind,
            Except.bind, isOkE] at h
        | ok region =>
          cases h4 : outFileStr args ("./" ++ func ++ "-experiment.json") with
          | error e =>
            simp [generate_generic_experiment, h1, h2, h3, h4, Bind.bind,
              Except.bind, isOkE] at h
          | ok outFile =>
            simp [generate_generic_experiment, h1, h2, h3, h4, Bind.bind,
              Except.bind, pure, Except.pure, soleStepArgs, methodOf, expOf,
              writesOf, generate_experiment_json, jLookup, jIndex, lookupA,
              renderAction]
  · rfl

/-- Claim C2 witness: the general part applied at the concrete
example. -/
theorem generic_excludes_meta_fields_witness :
    isOkE (generate_generic_experiment argsC2 "m" "f") = true ∧
    soleStepArgs (generate_generic_experiment argsC2 "m" "f") =
      some (.obj [("instance_ids", .arr [.str "i-1", .str "i-2"]),
                  ("force", .bool true)]) :=
  ⟨rfl, generic_excludes_meta_fields.1 argsC2 "m" "f" rfl⟩

/-- Arguments supplying an empty-string `health_check_url`. -/
def argsHc : AList :=
  [("title", .str "t"), ("az", .str "a"), ("health_check_url", .str "")]

/-- Claim C3 counterexample: a call that supplies `health_check_url` (as the
empty string, which the Python truthiness test on `args.get(...)` rejects)
produces an empty steady-state probe list, not a one-element one, so the
universal claim over calls supplying health_check_url fails. -/
theorem health_check_empty_url_counterexample :
    lookupA argsHc "health_check_url" = some (Json.str "") ∧
    probesOf (generate_az_failure_experiment argsHc) = some (Json.arr []) :=
  ⟨rfl, rfl⟩

/-- Claim C3 as amended: a call to the AZ-failure or ASG-AZ-failure generator
whose `health_check_url` argument is absent or falsy (for example the empty
string) yields an empty steady-state probe list, and a call supplying a
truthy `health_check_url` yields exactly one probe whose provider is module
`chaoslib.provider.http`, function `get`, with arguments
`{url: <the supplied value>, expected_status: 200}`. -/
theorem health_check_probe_truthy (args : AList) :
    (isOkE (generate_az_failure_experiment args) = true →
      probesOf (generate_az_failure_experiment args) =
        some (.arr (if (dget args "health_check_url").truthy then
          [.obj [("type", .str "probe"),
                 ("name", .str "health_check"),
                 ("provider",
                   .obj [("type", .str "python"),
                         ("module", .str "chaoslib.provider.http"),
                         ("func", .str "get"),
                         ("arguments",
                           .obj [("url", dget args "health_check_url"),
                                 ("expected_status", .num 200)])]),
                 ("tolerance", .bool true)]]
        else []))) ∧
    (isOkE (generate_asg_az_failure_experiment args) = true →
      probesOf (generate_asg_az_failure_experiment args) =
        some (.arr (if (dget args "health_check_url").truthy then
          [.obj [("type", .str "probe"),
                 ("name", .str "health_check"),
                 ("provider",
                   .obj [("type", .str "python"),
                         ("module", .str "chaoslib.provider.http"),
                         ("func", .str "get"),
                         ("arguments",
                           .obj [("url", dget args "health_check_url"),
                                 ("expected_status", .num 200)])]),
                 ("tolerance", .bool true)]]
        else []))) := by
  constructor
  · intro h
    cases h1 : ditem args "title" with
    | error e =>
      simp [generate_az_failure_experiment, h1, Bind.bind, Except.bind,
        isOkE] at h
    | ok tv =>
      cases h1a : ditem args "az" with
      | error e =>
        simp [generate_az_failure_experiment, h1, h1a, Bind.bind,
          Except.bind, isOkE] at h
      | ok azv =>
        cases h2 : reqStr tv with
        | error e =>
          simp [generate_az_failure_experiment, h1, h1a, h2, Bind.bind,
            Except.bind, isOkE] at h
        | ok t =>
          cases h3 : reqStr (dgetD args "aws_region" (.str "us-east-1")) with
          | error e =>
            simp [generate_az_failure_experiment, h1, h1a, h2, h3, Bind.bind,
              Except.bind, isOkE] at h
          | ok region =>
            cases h4 : outFileStr args "./az-failure-experiment.json" with
            | error e =>
              simp [generate_az_failure_experiment, h1, h1a, h2, h3, h4,
                Bind.bind, Except.bind, isOkE] at h
            | ok outFile =>
              cases htr : (dget args "health_check_url").truthy <;>
                simp [generate_az_failure_experiment, h1, h1a, h2, h3, h4,
                  Bind.bind, Except.bind, pure, Except.pure, probesOf, expOf,
                  writesOf, generate_experiment_json, jLookup, lookupA,
                  healthCheckProbes, htr, renderProbe]
  · intro h
    cases h1 : ditem args "title" with
    | error e =>
      simp [generate_asg_az_failure_experiment, h1, Bind.bind, Except.bind,
        isOkE] at h
    | ok tv =>
      cases h1a : ditem args "az" with
      | error e =>
        simp [generate_asg_az_failure_experiment, h1, h1a, Bind.bind,
          Except.bind, isOkE] at h
      | ok azv =>
        cases h2 : reqStr tv with
        | error e =>
          simp [generate_asg_az_failure_experiment, h1, h1a, h2, Bind.bind,
            Except.bind, isOkE] at h
        | ok t =>
          cases h3 : reqStr (dgetD args "aws_region" (.str "us-east-1")) with
          | error e =>
            simp [generate_asg_az_failure_experiment, h1, h1a, h2, h3,
              Bind.bind, Except.bind, isOkE] at h
          | ok region =>
            cases h4 : outFileStr args "./asg-az-failure-experiment.json" with
            | error e =>
              simp [generate_asg_az_failure_experiment, h1, h1a, h2, h3, h4,
                Bind.bind, Except.bind, isOkE] at h
            | ok outFile =>
              cases htr : (dget args "health_check_url").truthy <;>
                simp [generate_asg_az_failure_experiment, h1, h1a, h2, h3, h4,
                  Bind.bind, Except.bind, pure, Except.pure, probesOf, expOf,
                  writesOf, generate_experiment_json, jLookup, lookupA,
                  healthCheckProbes, htr, renderProbe]

/-- Arguments supplying a truthy `health_check_url`. -/
def argsHcW : AList :=
  [("title", .str "t"), ("az", .str "a"),
   ("health_check_url", .str "http://h/health")]

/-- Claim C3 witness: the amended theorem applied to a call with a truthy
URL, on both generators. -/
theorem health_check_probe_truthy_witness :
    (isOkE (generate_az_failure_experiment argsHcW) = true ∧
      probesOf (generate_az_failure_experiment argsHcW) =
        some (.arr [.obj [("type", .str "probe"),
               ("name", .str "health_check"),
               ("provider",
                 .obj [("type", .str "python"),
                       ("module", .str "chaoslib.provider.http"),
                       ("func", .str "get"),
                       ("arguments",
                         .obj [("url", .str "http://h/health"),
                               ("expected_status", .num 200)])]),
               ("tolerance", .bool true)]])) ∧
    (isOkE (generate_asg_az_failure_experiment argsHcW) = true ∧
      probesOf (generate_asg_az_failure_experiment argsHcW) =
        some (.arr [.obj [("type", .str "probe"),
               ("name", .str "health_check"),
               ("provider",
                 .obj [("type", .str "python"),
                       ("module", .str "chaoslib.provider.http"),
                       ("func", .str "get"),
                       ("arguments",
                         .obj [("url", .str "http://h/health"),
                               ("expected_status", .num 200)])]),
               ("tolerance", .bool true)]])) :=
  ⟨⟨rfl, (health_check_probe_truthy argsHcW).1 rfl⟩,
   ⟨rfl, (health_check_probe_truthy argsHcW).2 rfl⟩⟩

/-- CPU stress arguments: `cpu_cores=4, duration_seconds=600`. -/
def argsCpu : AList :=
  [("title", .str "t"), ("instance_ids", .arr [.str "i-1"]),
   ("cpu_cores", .num 4), ("duration_seconds", .num 600)]

/-- Disk stress arguments:
`size_mb=2048, duration_seconds=300, path="/var/tmp"`. -/
def argsDisk : AList :=
  [("title", .str "t"), ("instance_ids", .arr [.str "i-1"]),
   ("size_mb", .num 2048), ("duration_seconds", .num 300),
   ("path", .str "/var/tmp")]

/-- Claim C4: CPU stress with `cpu_cores=4, duration_seconds=600` yields one
command string containing `stress --cpu 4` and `--timeout 600s`; disk stress
with `size_mb=2048, duration_seconds=300, path="/var/tmp"` yields exactly a
`dd` fill of `/var/tmp/chaos_fill` with `count=2048`, then `sleep 300`, then
a cleanup removing `/var/tmp/chaos_fill`. -/
theorem ssm_stress_commands_concrete :
    commandsOf (generate_ssm_stress_experiment argsCpu "cpu") =
      some (.arr [.str "stress --cpu 4 --timeout 600s"]) ∧
    strContains "stress --cpu 4 --timeout 600s" "stress --cpu 4" = true ∧
    strContains "stress --cpu 4 --timeout 600s" "--timeout 600s" = true ∧
    commandsOf (generate_ssm_stress_experiment argsDisk "disk") =
      some (.arr [.str "dd if=/dev/zero of=/var/tmp/chaos_fill bs=1M count=2048",
                  .str "sleep 300",
                  .str "rm -f /var/tmp/chaos_fill"]) ∧
    strContains "dd if=/dev/zero of=/var/tmp/chaos_fill bs=1M count=2048"
      "/var/tmp/chaos_fill" = true ∧
    strContains "dd if=/dev/zero of=/var/tmp/chaos_fill bs=1M count=2048"
      "count=2048" = true ∧
    strContains "rm -f /var/tmp/chaos_fill" "/var/tmp/chaos_fill" = true :=
  ⟨rfl, rfl, rfl, rfl, rfl, rfl, rfl⟩

/-- Number of subprocess invocations in an event trace. -/
def countSubproc : List FsEvent → Nat
  | [] => 0
  | .subprocCall _ :: rest => countSubproc rest + 1
  | _ :: rest => countSubproc rest

/-- Temporary files created in an event trace, in order. -/
def tempCreatedPaths : List FsEvent → List String
  | [] => []
  | .tempCreated p _ :: rest => p :: tempCreatedPaths rest
  | _ :: rest => tempCreatedPaths rest

/-- Temporary files deleted in an event trace, in order. -/
def tempDeletedPaths : List FsEvent → List String
  | [] => []
  | .tempDeleted p :: rest => p :: tempDeletedPaths rest
  | _ :: rest => tempDeletedPaths rest

/-- The `method[0].provider.module` of the document written to the first
temporary file of an event trace. -/
def firstDocModule (evs : List FsEvent) : Option Json :=
  match evs with
  | .tempCreated _ doc :: _ =>
    (jLookup doc "method").bind (fun m =>
      (jIndex m 0).bind (fun s =>
        (jLookup s "provider").bind (fun p => jLookup p "module")))
  | _ => none

/-- A world in which no path exists and every subprocess times out. -/
def w0 : World :=
  ⟨fun _ => false, fun _ => SubprocResult.timedOut, "/w",
   fun n => "/tmp/t" ++ toString n⟩

/-- A world in which every path exists and every subprocess times out. -/
def w1 : World :=
  ⟨fun _ => true, fun _ => SubprocResult.timedOut, "/w",
   fun n => "/tmp/t" ++ toString n⟩

/-- A world in which only `a_ec2.json` exists and every subprocess succeeds
silently. -/
def w2 : World :=
  ⟨fun s => s == "a_ec2.json", fun _ => SubprocResult.completed 0 "" "",
   "/w", fun n => "/tmp/t" ++ toString n⟩

/-- Claim C5: in `rollback_from_state`, a nonexistent state file path yields
a not-found warning entry and triggers no subprocess call; an existing path
containing `ec2` or `asg` is attempted with exactly one subprocess call; and
the batch loop is the independent concatenation of the per-file outcomes, so
no per-file failure (timeout, raised exception, nonzero exit) aborts the
processing of the remaining paths and all entries are collected together. -/
theorem rollback_batch_independent (w : World) (cwd : String) (k : Nat)
    (f : String) :
    (w.fs f = false →
      processStateFile w cwd k f =
        ⟨["Warning: State file not found: " ++ f], []⟩) ∧
    (w.fs f = true →
      (strContains f "ec2" = true ∨ strContains f "asg" = true) →
      countSubproc (processStateFile w cwd k f).events = 1) ∧
    (∀ (files : List String) (j : Nat) (acc : List String)
        (ev : List FsEvent),
      rollbackLoopAcc w cwd files j acc ev =
        ⟨acc ++ (batchOutcome w cwd j files).lines,
         ev ++ (batchOutcome w cwd j files).events⟩) := by
  refine ⟨?_, ?_, ?_⟩
  · intro hf
    simp [processStateFile, hf]
  · intro hf hor
    have hmod : ∃ mod, routeModule f = some mod := by
      rcases hor with h | h
      · exact ⟨"azchaosaws.ec2.actions", by simp [routeModule, h]⟩
      · cases he : strContains f "ec2"
        · exact ⟨"azchaosaws.asg.actions", by simp [routeModule, he, h]⟩
        · exact ⟨"azchaosaws.ec2.actions", by simp [routeModule, he]⟩
    rcases hmod with ⟨mod, hm⟩
    cases hr : w.runner ⟨["chaos", "run", w.tempName k], 600, some cwd⟩ <;>
      simp [processStateFile, hf, hm, hr, countSubproc]
  · intro files
    induction files with
    | nil => intro j acc ev; simp [rollbackLoopAcc, batchOutcome]
    | cons g rest ih =>
      intro j acc ev
      simp [rollbackLoopAcc, batchOutcome, ih, List.append_assoc]

/-- Claim C5 witness: the scenario of the spec — one existing `ec2` path, one
nonexistent path — instantiated in a concrete world: the missing path gets a
warning and no subprocess call, the existing one is attempted exactly once,
and the batch result is the concatenation of the two independent outcomes. -/
theorem rollback_batch_independent_witness :
    processStateFile w2 "/w" 1 "missing.json" =
      ⟨["Warning: State file not found: missing.json"], []⟩ ∧
    countSubproc (processStateFile w2 "/w" 0 "a_ec2.json").events = 1 ∧
    rollbackLoopAcc w2 "/w" ["a_ec2.json", "missing.json"] 0 [] [] =
      ⟨(batchOutcome w2 "/w" 0 ["a_ec2.json", "missing.json"]).lines,
       (batchOutcome w2 "/w" 0 ["a_ec2.json", "missing.json"]).events⟩ ∧
    (batchOutcome w2 "/w" 0 ["a_ec2.json", "missing.json"]).lines =
      ["Rollback from a_ec2.json: SUCCESS",
       "Warning: State file not found: missing.json"] :=
  ⟨(rollback_batch_independent w2 "/w" 1 "missing.json").1 (by decide),
   (rollback_batch_independent w2 "/w" 0 "a_ec2.json").2.1 rfl
     (Or.inl (by decide)),
   (rollback_batch_independent w2 "/w" 0 "x").2.2
     ["a_ec2.json", "missing.json"] 0 [] [],
   rfl⟩

/-- Claim C8: for every state file processed by `rollback_from_state`, every
temporary rollback experiment file created is also deleted while
processing that file, whatever the subprocess outcome — normal exit, timeout or raised
exception — so no temporary file persists. -/
theorem temp_file_always_deleted (w : World) (cwd : String) (k : Nat)
    (f : String) :
    tempCreatedPaths (processStateFile w cwd k f).events =
      tempDeletedPaths (processStateFile w cwd k f).events := by
  cases hf : w.fs f
  · simp [processStateFile, hf, tempCreatedPaths, tempDeletedPaths]
  · cases hm : routeModule f
    · simp [processStateFile, hf, hm, tempCreatedPaths, tempDeletedPaths]
    · cases hr : w.runner ⟨["chaos", "run", w.tempName k], 600, some cwd⟩ <;>
        simp [processStateFile, hf, hm, hr, tempCreatedPaths,
          tempDeletedPaths]

/-- Claim C10: rollback routing gives the `ec2` substring test priority: an
existing state file path containing `ec2` is routed to
`azchaosaws.ec2.actions` even when it also contains `asg`; the ASG module is
chosen only for paths containing `asg` but not `ec2`; and an existing path
containing neither is skipped with an unknown-state-file-type warning. -/
theorem route_ec2_priority (w : World) (cwd : String) (k : Nat) (f : String)
    (hf : w.fs f = true) :
    (strContains f "ec2" = true →
      firstDocModule (processStateFile w cwd k f).events =
        some (.str "azchaosaws.ec2.actions")) ∧
    (strContains f "ec2" = false → strContains f "asg" = true →
      firstDocModule (processStateFile w cwd k f).events =
        some (.str "azchaosaws.asg.actions")) ∧
    (strContains f "ec2" = false → strContains f "asg" = false →
      processStateFile w cwd k f =
        ⟨["Warning: Unknown state file type: " ++ f], []⟩) := by
  refine ⟨?_, ?_, ?_⟩
  · intro h1
    cases hr : w.runner ⟨["chaos", "run", w.tempName k], 600, some cwd⟩ <;>
      simp [processStateFile, hf, routeModule, h1, hr, firstDocModule,
        rollbackDoc, jLookup, jIndex, lookupA]
  · intro h1 h2
    cases hr : w.runner ⟨["chaos", "run", w.tempName k], 600, some cwd⟩ <;>
      simp [processStateFile, hf, routeModule, h1, h2, hr, firstDocModule,
        rollbackDoc, jLookup, jIndex, lookupA]
  · intro h1 h2
    simp [processStateFile, hf, routeModule, h1, h2]

/-- Claim C10 witness: a path containing both `ec2` and `asg` routes to the
EC2 module, a path with only `asg` routes to the ASG module, and a path with
neither is skipped with the unknown-type warning. -/
theorem route_ec2_priority_witness :
    (strContains "st_ec2_asg.json" "asg" = true ∧
      firstDocModule (processStateFile w1 "/w" 0 "st_ec2_asg.json").events =
        some (.str "azchaosaws.ec2.actions")) ∧
    firstDocModule (processStateFile w1 "/w" 0 "st_asg.json").events =
      some (.str "azchaosaws.asg.actions") ∧
    processStateFile w1 "/w" 0 "state.json" =
      ⟨["Warning: Unknown state file type: state.json"], []⟩ :=
  ⟨⟨by decide,
    (route_ec2_priority w1 "/w" 0 "st_ec2_asg.json" rfl).1 (by decide)⟩,
   (route_ec2_priority w1 "/w" 0 "st_asg.json" rfl).2.1 (by decide)
     (by decide),
   (route_ec2_priority w1 "/w" 0 "state.json" rfl).2.2 (by decide)
     (by decide)⟩

/-- Claim C6: `run_experiment` on a nonexistent path returns a structured
not-found result without any subprocess invocation, and on timeout of its
3600-second-bounded subprocess call returns a structured timeout result;
`validate_experiment` likewise returns the not-found result without invoking
the subprocess; all of these return `Except.ok` results — no expected
failure mode raises past the tool boundary. -/
theorem run_validate_guards (w : World) (args : AList) (p : String)
    (hp : lookupA args "experiment_file" = some (Json.str p)) :
    (w.fs p = false →
      run_experiment w args =
        .ok (textOnly ("Error: Experiment file not found: " ++ p)) ∧
      validate_experiment w args =
        .ok (textOnly ("Error: Experiment file not found: " ++ p))) ∧
    (w.fs p = true →
      lookupA args "journal_path" = none →
      lookupA args "working_directory" = none →
      w.runner ⟨["chaos", "run", p], 3600, some w.cwd0⟩ =
        SubprocResult.timedOut →
      run_experiment w args =
        .ok ⟨[textJson "Error: Experiment execution timed out after 1 hour"],
             [],
             [.subprocCall ⟨["chaos", "run", p], 3600, some w.cwd0⟩]⟩) := by
  have hd : ditem args "experiment_file" = .ok (Json.str p) := by
    simp [ditem, hp]
  constructor
  · intro hf
    constructor
    · simp [run_experiment, hd, reqPathStr, Bind.bind, Except.bind, hf,
        pure, Except.pure]
    · simp [validate_experiment, hd, reqPathStr, Bind.bind, Except.bind, hf,
        pure, Except.pure]
  · intro hf hj hw hr
    simp [run_experiment, hd, reqPathStr, Bind.bind, Except.bind, hf, dget,
      hj, Json.truthy, cwdOf, hw, hr, pure, Except.pure]

/-- Arguments naming one experiment file. -/
def argsRun : AList := [("experiment_file", .str "e.json")]

/-- Claim C6 witness: the guards instantiated in a world without the file
(not-found results, no subprocess events) and in a world whose subprocess
always times out (structured timeout result from the 3600-second call). -/
theorem run_validate_guards_witness :
    run_experiment w0 argsRun =
      .ok (textOnly "Error: Experiment file not found: e.json") ∧
    validate_experiment w0 argsRun =
      .ok (textOnly "Error: Experiment file not found: e.json") ∧
    run_experiment w1 argsRun =
      .ok ⟨[textJson "Error: Experiment execution timed out after 1 hour"],
           [],
           [.subprocCall ⟨["chaos", "run", "e.json"], 3600, some "/w"⟩]⟩ :=
  ⟨((run_validate_guards w0 argsRun "e.json" rfl).1 rfl).1,
   ((run_validate_guards w0 argsRun "e.json" rfl).1 rfl).2,
   (run_validate_guards w1 argsRun "e.json" rfl).2 rfl rfl rfl rfl⟩

/-- Claim C7: dispatching any tool name outside the fixed catalog fails with
an error naming the offending identifier, surfaced as an error value rather
than a result, and writes nothing to disk. -/
theorem unknown_tool_dispatch (w : World) (name : String) (args : AList)
    (h : name ∉ toolNames) :
    call_tool w name args = .error ("Unknown tool: " ++ name) ∧
    writesOf (call_tool w name args) = [] := by
  simp only [toolNames, List.mem_cons, List.not_mem_nil, or_false,
    not_or] at h
  obtain ⟨h1, h2, h3, h4, h5, h6, h7, h8, h9, h10, h11, h12, h13, h14, h15,
    h16, h17, h18, h19, h20, h21, h22, h23⟩ := h
  have hc : call_tool w name args = .error ("Unknown tool: " ++ name) := by
    simp [call_tool, h1, h2, h3, h4, h5, h6, h7, h8, h9, h10, h11, h12, h13,
      h14, h15, h16, h17, h18, h19, h20, h21, h22, h23]
  exact ⟨hc, by simp [hc, writesOf]⟩

/-- Claim C7 witness: a concrete unrecognized tool name. -/
theorem unknown_tool_dispatch_witness :
    ("chaos_totally_unknown" ∈ toolNames → False) ∧
    call_tool w0 "chaos_totally_unknown" [] =
      .error "Unknown tool: chaos_totally_unknown" ∧
    writesOf (call_tool w0 "chaos_totally_unknown" []) = [] :=
  ⟨by decide,
   (unknown_tool_dispatch w0 "chaos_totally_unknown" [] (by decide)).1,
   (unknown_tool_dispatch w0 "chaos_totally_unknown" [] (by decide)).2⟩

/-- The generation tools of the catalog (every tool except the run, validate
and rollback operations). -/
def genToolNames : List String :=
  ["chaos_generate_az_failure_experiment",
   "chaos_isolate_az_network",
   "chaos_simulate_az_partition",
   "chaos_generate_asg_az_failure_experiment",
   "chaos_generate_ec2_actions_experiment",
   "chaos_stop_instances",
   "chaos_terminate_instances",
   "chaos_reboot_instances",
   "chaos_detach_volumes",
   "chaos_suspend_asg_processes",
   "chaos_terminate_random_instances",
   "chaos_ssm_send_command",
   "chaos_ssm_stress_cpu",
   "chaos_ssm_fill_disk",
   "chaos_ssm_kill_process",
   "chaos_modify_security_groups",
   "chaos_simulate_network_latency",
   "chaos_reboot_db_instance",
   "chaos_failover_db_cluster",
   "chaos_deregister_targets"]

/-- Arguments for a tool call that satisfies `title` and `instance_ids` but
omits the schema-required `commands` field. -/
def argsC9 : AList :=
  [("title", .str "t"), ("instance_ids", .arr [.str "i-1"])]

/-- Claim C9 counterexample: `chaos_ssm_send_command` declares `commands`
required, yet a call omitting it is not rejected — generation proceeds and a
file is written, contradicting the claim that every missing required schema
field is reported before any write. -/
theorem required_field_unchecked_counterexample :
    ("commands" ∈ requiredFields "chaos_ssm_send_command") ∧
    lookupA argsC9 "commands" = none ∧
    (writesOf (call_tool w0 "chaos_ssm_send_command" argsC9)).length = 1 :=
  ⟨by decide, rfl, rfl⟩

/-- Claim C9 as amended: for every generation tool, an argument mapping
lacking the required `title` field fails (with the `KeyError` the source
raises) before any generation side effect — no file is written; required
fields the generation code never reads (such as `commands` above) are not
checked. -/
theorem missing_title_no_write (w : World) (name : String) (args : AList)
    (hn : name ∈ genToolNames) (ht : lookupA args "title" = none) :
    call_tool w name args = .error "KeyError: title" ∧
    writesOf (call_tool w name args) = [] := by
  have hterr : ditem args "title" = .error "KeyError: title" := by
    simp [ditem, ht]
  have hc : call_tool w name args = .error "KeyError: title" := by
    fin_cases hn <;>
      simp [call_tool, generate_az_failure_experiment,
        generate_asg_az_failure_experiment, generate_generic_experiment,
        generate_ec2_actions_experiment, generate_ssm_stress_experiment,
        hterr, Bind.bind, Except.bind]
  exact ⟨hc, by simp [hc, writesOf]⟩

/-- Claim C9 witness: a stop-instances call without a title fails before any
write. -/
theorem missing_title_no_write_witness :
    call_tool w0 "chaos_stop_instances" [("force", .bool true)] =
      .error "KeyError: title" ∧
    writesOf (call_tool w0 "chaos_stop_instances" [("force", .bool true)]) =
      [] :=
  ⟨(missing_title_no_write w0 "chaos_stop_instances" [("force", .bool true)]
      (by decide) rfl).1,
   (missing_title_no_write w0 "chaos_stop_instances" [("force", .bool true)]
      (by decide) rfl).2⟩

end Ctk
